import Mathlib

/-!
Verification of the Terraform resource-import script
(`imports/import_resources.py`) of the `terraform-core-aws` repository.

The script is shallowly embedded: every external collaborator (the
`terraform` subprocess calls, the S3 bucket listing, the IAM role listing,
the per-resource `terraform import` invocations) is modelled by a field of
an environment record `Env`, where `none` models the failing case
(non-zero exit status or a raised exception).  The methods of the Python
class `TerraformImporter` become pure functions of that environment, and
`run_import` additionally produces the ordered trace of external
invocations it performs, so that frame / effect properties can be stated.
-/

/-- ASCII whitespace, as stripped by Python `str.strip()`. -/
def isSpaceChar (c : Char) : Bool :=
  c = ' ' || c = '\t' || c = '\n' || c = '\r' || c = '\x0b' || c = '\x0c'

/-- Python `s.strip(chars)`: drop leading and trailing characters
satisfying `p`. -/
def pyStripBy (p : Char → Bool) (s : String) : String :=
  String.mk (((s.data.dropWhile p).reverse.dropWhile p).reverse)

/-- Python `s.strip()` (whitespace form). -/
def pyStrip (s : String) : String := pyStripBy isSpaceChar s

/-- Python `s.lower()` (ASCII case folding). -/
def pyLower (s : String) : String := String.mk (s.data.map Char.toLower)

/-- Python `s.startswith(p)`. -/
def strStartsWith (s p : String) : Bool := List.isPrefixOf p.data s.data

/-- The external world of one run.  Each field models one collaborator of
the script; `none` models its failure (non-zero exit / exception). -/
structure Env where
  /-- stdout of `terraform workspace show`; `none` = `CalledProcessError`. -/
  workspaceShow : Option String
  /-- stdout of `terraform console` on `var.project_name`; `none` = any
  exception (timeout, parse error, tool absent). -/
  projectConsole : Option String
  /-- stdout of `terraform console` on `var.import_existing_resources`;
  `none` = any exception. -/
  importFlagConsole : Option String
  /-- bucket names returned by `s3.list_buckets`; `none` = exception. -/
  buckets : Option (List String)
  /-- role-name pages returned by the paginated `iam.list_roles`;
  `none` = exception. -/
  rolePages : Option (List (List String))
  /-- exit status of `terraform import <address> <id>`:
  `true` = exit 0. -/
  importOk : String → String → Bool

/-- `TerraformImporter._get_current_workspace`: stripped stdout of
`terraform workspace show`; `none` models the fatal `sys.exit(1)` path. -/
def get_current_workspace (env : Env) : Option String :=
  env.workspaceShow.map pyStrip

/-- Workspace resolution in `TerraformImporter.__init__`:
`workspace or self._get_current_workspace()`.  Python truthiness makes
both `None` and the empty string fall back to the workspace query. -/
def resolveWorkspace (env : Env) (workspace : Option String) : Option String :=
  match workspace with
  | some w => if w = "" then get_current_workspace env else some w
  | none => get_current_workspace env

/-- `TerraformImporter._get_project_name`: evaluate `var.project_name`
via `terraform console`; strip whitespace then surrounding quotes; fall
back to `"terraform-core"` on any exception or empty result. -/
def get_project_name (env : Env) : String :=
  match env.projectConsole with
  | none => "terraform-core"
  | some out =>
      let project_name := pyStripBy (fun c => c = '\"') (pyStrip out)
      if project_name = "" then "terraform-core" else project_name

/-- The resource-name prefix computed in `TerraformImporter.__init__`:
`f"{self.project_name}-state-files-{self.workspace}"`. -/
def mkResourcePfx (project_name workspace : String) : String :=
  project_name ++ "-state-files-" ++ workspace

/-- The state of a constructed `TerraformImporter`. -/
structure Importer where
  profile : String
  workspace : String
  project_name : String
  resourcePfx : String
deriving DecidableEq

/-- `TerraformImporter.__init__`: resolve the workspace (fatal on
failure, hence `Option`), resolve the project name, and compute the
resource prefix. -/
def initImporter (env : Env) (profile : String) (workspace : Option String) :
    Option Importer :=
  (resolveWorkspace env workspace).map (fun ws =>
    let pn := get_project_name env
    { profile := profile, workspace := ws, project_name := pn,
      resourcePfx := mkResourcePfx pn ws })

/-- `TerraformImporter.discover_s3_bucket`: first bucket whose name
starts with the prefix; `none` on no match or on exception. -/
def discover_s3_bucket (env : Env) (pfx : String) : Option String :=
  match env.buckets with
  | none => none
  | some bs => bs.find? (fun b => strStartsWith b pfx)

/-- The nested page/role loop of `TerraformImporter.discover_iam_role`:
first role of the first page containing a match. -/
def findRoleInPages (pfx : String) : List (List String) → Option String
  | [] => none
  | page :: rest =>
      match page.find? (fun r => strStartsWith r pfx) with
      | some r => some r
      | none => findRoleInPages pfx rest

/-- `TerraformImporter.discover_iam_role`: first role (across pages)
whose name starts with the prefix; `none` on no match or on exception. -/
def discover_iam_role (env : Env) (pfx : String) : Option String :=
  match env.rolePages with
  | none => none
  | some pages => findRoleInPages pfx pages

/-- `TerraformImporter.get_import_commands`: empty unless both a bucket
and a role were discovered (Python truthiness: an empty-string id also
counts as absent), otherwise the fixed 7-entry list. -/
def get_import_commands (env : Env) (pfx : String) : List (String × String) :=
  match discover_s3_bucket env pfx with
  | none => []
  | some s3_bucket =>
      if s3_bucket = "" then []
      else
        match discover_iam_role env pfx with
        | none => []
        | some iam_role =>
            if iam_role = "" then []
            else
              [("aws_s3_bucket.terraform_state", s3_bucket),
               ("aws_s3_bucket_versioning.terraform_state_versioning", s3_bucket),
               ("aws_s3_bucket_server_side_encryption_configuration.terraform_state_encryption", s3_bucket),
               ("aws_s3_bucket_public_access_block.terraform_state_pab", s3_bucket),
               ("aws_s3_bucket_lifecycle_configuration.terraform_state_lifecycle", s3_bucket),
               ("aws_iam_role.terraform_state_role", iam_role),
               ("aws_iam_role_policy.terraform_state_policy", iam_role ++ ":terraform-state-files-policy")]

/-- `TerraformImporter.check_import_needed`:
`result.stdout.strip().lower() == "true"`, `False` on any exception. -/
def check_import_needed (env : Env) : Bool :=
  match env.importFlagConsole with
  | none => false
  | some out => pyLower (pyStrip out) == "true"

/-- One external invocation performed by the script. -/
inductive Invocation where
  | workspaceShow : Invocation
  | consoleQuery : String → Invocation
  | listBuckets : Invocation
  | listRoles : Invocation
  | terraformImport : String → String → Invocation
deriving DecidableEq

/-- Whether an invocation is a `terraform import` call. -/
def Invocation.isImportCall : Invocation → Bool
  | Invocation.terraformImport _ _ => true
  | _ => false

/-- Per-operation outcome recorded by the import loop. -/
inductive Outcome where
  | imported : Outcome
  | failed : Outcome
  | skippedDryRun : Outcome
deriving DecidableEq

/-- Result of one `run_import` call: the ordered trace of external
invocations it performed, and the per-operation record of the loop. -/
structure RunResult where
  trace : List Invocation
  outcomes : List ((String × String) × Outcome)
deriving DecidableEq

/-- One iteration of the loop in `TerraformImporter.run_import`: in dry
run only report; otherwise invoke `terraform import` and record success
or failure, the `except CalledProcessError` branch continuing the loop. -/
def execStep (env : Env) (dry_run : Bool) (c : String × String) :
    List Invocation × ((String × String) × Outcome) :=
  if dry_run then ([], (c, Outcome.skippedDryRun))
  else ([Invocation.terraformImport c.1 c.2],
        (c, if env.importOk c.1 c.2 then Outcome.imported else Outcome.failed))

/-- `TerraformImporter.run_import`: gate on `check_import_needed` (which
issues one `terraform console` query), then build the plan (issuing the
bucket and role listings), then loop over the plan entries. -/
def run_import (env : Env) (pfx : String) (dry_run : Bool) : RunResult :=
  if check_import_needed env then
    { trace := Invocation.consoleQuery "var.import_existing_resources" ::
        Invocation.listBuckets :: Invocation.listRoles ::
        ((get_import_commands env pfx).map (fun c => (execStep env dry_run c).1)).flatten,
      outcomes := (get_import_commands env pfx).map (fun c => (execStep env dry_run c).2) }
  else
    { trace := [Invocation.consoleQuery "var.import_existing_resources"],
      outcomes := [] }

/-! ## Concrete environments used by the witnesses -/

/-- A fully healthy environment: project `acme`, workspace `prod`,
matching bucket and role exist, every import succeeds. -/
def envHappy : Env :=
  { workspaceShow := some "prod\n",
    projectConsole := some "\"acme\"\n",
    importFlagConsole := some "true\n",
    buckets := some ["other-bucket", "acme-state-files-prod-a1b2"],
    rolePages := some [["other-role"], ["acme-state-files-prod-role"]],
    importOk := fun _ _ => true }

/-- Like `envHappy`, but every `terraform import` invocation fails. -/
def envFailAll : Env := { envHappy with importOk := fun _ _ => false }

/-- Like `envHappy`, but no IAM role matches (partial discovery). -/
def envPartial : Env := { envHappy with rolePages := some [["other-role"]] }

/-- Like `envHappy`, but both enumeration calls raise. -/
def envBroken : Env := { envHappy with buckets := none, rolePages := none }

/-- Like `envHappy`, but the import-needed flag query raises. -/
def envFlagOff : Env := { envHappy with importFlagConsole := none }

/-- Like `envHappy`, but the project-name query raises. -/
def envProjFail : Env := { envHappy with projectConsole := none }

/-- The importer that `initImporter envHappy "mfa" none` constructs. -/
def impHappy : Importer :=
  { profile := "mfa", workspace := "prod", project_name := "acme",
    resourcePfx := "acme-state-files-prod" }

/-! ## Helper lemmas -/

lemma strStartsWith_empty (pfx : String) (h : strStartsWith "" pfx = true) :
    pfx = "" := by
  cases pfx with
  | mk data =>
      cases data with
      | nil => rfl
      | cons c cs =>
          exfalso
          have h' : List.isPrefixOf (c :: cs) ([] : List Char) = true := h
          simp [List.isPrefixOf] at h'

lemma mkResourcePfx_ne_empty (p w : String) : mkResourcePfx p w ≠ "" := by
  intro h
  have hl := congrArg String.length h
  simp only [mkResourcePfx, String.length_append] at hl
  have h13 : ("-state-files-" : String).length = 13 := rfl
  have h0 : ("" : String).length = 0 := rfl
  rw [h13, h0] at hl
  omega

lemma discover_s3_bucket_matches (env : Env) (pfx b : String)
    (h : discover_s3_bucket env pfx = some b) : strStartsWith b pfx = true := by
  cases hb : env.buckets with
  | none => simp [discover_s3_bucket, hb] at h
  | some bs =>
      unfold discover_s3_bucket at h
      rw [hb] at h
      have h2 := List.find?_some h
      exact h2

lemma findRoleInPages_some (pfx r : String) (pages : List (List String))
    (h : findRoleInPages pfx pages = some r) : strStartsWith r pfx = true := by
  induction pages with
  | nil => simp [findRoleInPages] at h
  | cons page rest ih =>
      unfold findRoleInPages at h
      cases hp : page.find? (fun x => strStartsWith x pfx) with
      | none => rw [hp] at h; exact ih h
      | some y =>
          rw [hp] at h
          obtain rfl : y = r := Option.some.inj h
          have h2 := List.find?_some hp
          exact h2

lemma discover_iam_role_matches (env : Env) (pfx r : String)
    (h : discover_iam_role env pfx = some r) : strStartsWith r pfx = true := by
  cases hp : env.rolePages with
  | none => simp [discover_iam_role, hp] at h
  | some pages =>
      unfold discover_iam_role at h
      rw [hp] at h
      exact findRoleInPages_some pfx r pages h

lemma discovered_ne_empty (pfx b : String) (hpfx : pfx ≠ "")
    (h : strStartsWith b pfx = true) : b ≠ "" := by
  intro hb
  subst hb
  exact hpfx (strStartsWith_empty pfx h)

lemma get_import_commands_nil_of_missing (env : Env) (pfx : String)
    (h : discover_s3_bucket env pfx = none ∨ discover_iam_role env pfx = none) :
    get_import_commands env pfx = [] := by
  cases hb : discover_s3_bucket env pfx with
  | none => simp [get_import_commands, hb]
  | some b =>
      cases hr : discover_iam_role env pfx with
      | none => simp [get_import_commands, hb, hr]
      | some r =>
          rcases h with h | h
          · rw [hb] at h; exact Option.noConfusion h
          · rw [hr] at h; exact Option.noConfusion h

lemma flatten_map_execStep_dry (env : Env) (l : List (String × String)) :
    (l.map (fun c => (execStep env true c).1)).flatten = [] := by
  induction l with
  | nil => rfl
  | cons a l ih => simp [execStep, ih]

lemma flatten_map_execStep_apply (env : Env) (l : List (String × String)) :
    (l.map (fun c => (execStep env false c).1)).flatten
      = l.map (fun c => Invocation.terraformImport c.1 c.2) := by
  induction l with
  | nil => rfl
  | cons a l ih => rw [List.map_cons, List.flatten_cons, ih]; rfl

lemma map_execStep_snd_apply (env : Env) (l : List (String × String)) :
    l.map (fun c => (execStep env false c).2)
      = l.map (fun c =>
          (c, if env.importOk c.1 c.2 then Outcome.imported else Outcome.failed)) := by
  induction l with
  | nil => rfl
  | cons a l ih => simp [execStep, ih]

lemma filter_import_map (l : List (String × String)) :
    (l.map (fun c => Invocation.terraformImport c.1 c.2)).filter Invocation.isImportCall
      = l.map (fun c => Invocation.terraformImport c.1 c.2) := by
  induction l with
  | nil => rfl
  | cons a l ih => simp [Invocation.isImportCall, ih]

lemma filter_not_import_map (l : List (String × String)) :
    (l.map (fun c => Invocation.terraformImport c.1 c.2)).filter
        (fun v => !(Invocation.isImportCall v)) = [] := by
  induction l with
  | nil => rfl
  | cons a l ih =>
      have h1 : List.filter (fun v => !(Invocation.isImportCall v))
          (Invocation.terraformImport a.1 a.2 ::
            l.map (fun c => Invocation.terraformImport c.1 c.2))
          = List.filter (fun v => !(Invocation.isImportCall v))
              (l.map (fun c => Invocation.terraformImport c.1 c.2)) := rfl
      rw [List.map_cons, h1, ih]

/-! ## Claim theorems -/

/-- Claim C1: whenever discovery (against the importer's computed resource
prefix) yields both a bucket and a role, `get_import_commands` returns
exactly the 7 import operations, in the fixed order: bucket, versioning,
encryption, public-access-block, lifecycle (all bound to the bucket id),
then the role, then the role inline policy whose external id is the role
id concatenated with `:terraform-state-files-policy`. -/
theorem plan_both_found (env : Env) (project_name workspace b r : String)
    (hb : discover_s3_bucket env (mkResourcePfx project_name workspace) = some b)
    (hr : discover_iam_role env (mkResourcePfx project_name workspace) = some r) :
    get_import_commands env (mkResourcePfx project_name workspace) =
      [("aws_s3_bucket.terraform_state", b),
       ("aws_s3_bucket_versioning.terraform_state_versioning", b),
       ("aws_s3_bucket_server_side_encryption_configuration.terraform_state_encryption", b),
       ("aws_s3_bucket_public_access_block.terraform_state_pab", b),
       ("aws_s3_bucket_lifecycle_configuration.terraform_state_lifecycle", b),
       ("aws_iam_role.terraform_state_role", r),
       ("aws_iam_role_policy.terraform_state_policy", r ++ ":terraform-state-files-policy")] := by
  have hpfx := mkResourcePfx_ne_empty project_name workspace
  have hbne : b ≠ "" :=
    discovered_ne_empty _ b hpfx (discover_s3_bucket_matches env _ b hb)
  have hrne : r ≠ "" :=
    discovered_ne_empty _ r hpfx (discover_iam_role_matches env _ r hr)
  simp [get_import_commands, hb, hr, hbne, hrne]

/-- Witness for C1 at the concrete environment `envHappy`. -/
theorem plan_both_found_witness :
    get_import_commands envHappy (mkResourcePfx "acme" "prod") =
      [("aws_s3_bucket.terraform_state", "acme-state-files-prod-a1b2"),
       ("aws_s3_bucket_versioning.terraform_state_versioning", "acme-state-files-prod-a1b2"),
       ("aws_s3_bucket_server_side_encryption_configuration.terraform_state_encryption", "acme-state-files-prod-a1b2"),
       ("aws_s3_bucket_public_access_block.terraform_state_pab", "acme-state-files-prod-a1b2"),
       ("aws_s3_bucket_lifecycle_configuration.terraform_state_lifecycle", "acme-state-files-prod-a1b2"),
       ("aws_iam_role.terraform_state_role", "acme-state-files-prod-role"),
       ("aws_iam_role_policy.terraform_state_policy",
         "acme-state-files-prod-role" ++ ":terraform-state-files-policy")] :=
  plan_both_found envHappy "acme" "prod" "acme-state-files-prod-a1b2"
    "acme-state-files-prod-role" (by decide) (by decide)

/-- Claim C2: if the bucket, the role, or both were not discovered, the
plan is empty; conversely a non-empty plan implies both were discovered —
never a partial import list. -/
theorem plan_empty_unless_both (env : Env) (pfx : String) :
    ((discover_s3_bucket env pfx = none ∨ discover_iam_role env pfx = none) →
      get_import_commands env pfx = []) ∧
    (get_import_commands env pfx ≠ [] →
      (∃ b, discover_s3_bucket env pfx = some b) ∧
        ∃ r, discover_iam_role env pfx = some r) := by
  refine ⟨get_import_commands_nil_of_missing env pfx, fun hne => ⟨?_, ?_⟩⟩
  · cases hb : discover_s3_bucket env pfx with
    | none => exact absurd (get_import_commands_nil_of_missing env pfx (Or.inl hb)) hne
    | some b => exact ⟨b, rfl⟩
  · cases hr : discover_iam_role env pfx with
    | none => exact absurd (get_import_commands_nil_of_missing env pfx (Or.inr hr)) hne
    | some r => exact ⟨r, rfl⟩

/-- Witness for C2: bucket found but no role, so the plan is empty. -/
theorem plan_empty_unless_both_witness :
    get_import_commands envPartial "acme-state-files-prod" = [] :=
  (plan_empty_unless_both envPartial "acme-state-files-prod").1 (Or.inr (by decide))

/-- Claim C6: every constructed importer carries a resource prefix of the
form `{project}-state-files-{workspace}`, and recomputing the prefix from
the same two inputs yields the same value (the computation is a pure
function of the pair). -/
theorem resource_pfx_deterministic_form (env : Env) (profile : String)
    (wsArg : Option String) (imp : Importer)
    (h : initImporter env profile wsArg = some imp) :
    imp.resourcePfx = imp.project_name ++ "-state-files-" ++ imp.workspace ∧
    mkResourcePfx imp.project_name imp.workspace = imp.resourcePfx := by
  simp only [initImporter, Option.map_eq_some'] at h
  obtain ⟨ws, hws, rfl⟩ := h
  exact ⟨rfl, rfl⟩

/-- Witness for C6 at the concrete environment `envHappy`. -/
theorem resource_pfx_deterministic_form_witness :
    impHappy.resourcePfx = impHappy.project_name ++ "-state-files-" ++ impHappy.workspace ∧
    mkResourcePfx impHappy.project_name impHappy.workspace = impHappy.resourcePfx :=
  resource_pfx_deterministic_form envHappy "mfa" none impHappy (by decide)

/-- Claim C8: if the `terraform console` evaluation of `var.project_name`
fails in any way, the project name resolves to the fixed default
`"terraform-core"` instead of failing the run. -/
theorem project_name_default (env : Env) (h : env.projectConsole = none) :
    get_project_name env = "terraform-core" := by
  simp [get_project_name, h]

/-- Witness for C8 at the concrete environment `envProjFail`. -/
theorem project_name_default_witness :
    get_project_name envProjFail = "terraform-core" :=
  project_name_default envProjFail rfl

/-- Claim C9: a caller-supplied workspace override equal to the empty
string is treated like an absent override — the constructor falls back to
the external current-workspace query in both cases, and the two
constructions agree. -/
theorem empty_workspace_override (env : Env) (profile : String) :
    resolveWorkspace env (some "") = get_current_workspace env ∧
    initImporter env profile (some "") = initImporter env profile none := by
  exact ⟨rfl, rfl⟩

/-- Claim C3: in Apply mode (once the gate passed), a failing import at
any position `k` does not prevent the import invocation at any other
position — every plan entry is invoked — and the loop records each
entry's own success or failure individually. -/
theorem apply_failure_isolation (env : Env) (pfx : String) (k : Nat)
    (hneed : check_import_needed env = true)
    (hk : k < (get_import_commands env pfx).length)
    (hfail : env.importOk ((get_import_commands env pfx).get ⟨k, hk⟩).1
        ((get_import_commands env pfx).get ⟨k, hk⟩).2 = false) :
    (∀ j (hj : j < (get_import_commands env pfx).length),
        Invocation.terraformImport ((get_import_commands env pfx).get ⟨j, hj⟩).1
          ((get_import_commands env pfx).get ⟨j, hj⟩).2
          ∈ (run_import env pfx false).trace) ∧
    (run_import env pfx false).outcomes =
      (get_import_commands env pfx).map
        (fun c => (c, if env.importOk c.1 c.2
            then Outcome.imported else Outcome.failed)) ∧
    ((get_import_commands env pfx).get ⟨k, hk⟩, Outcome.failed)
      ∈ (run_import env pfx false).outcomes := by
  have hout : (run_import env pfx false).outcomes =
      (get_import_commands env pfx).map
        (fun c => (c, if env.importOk c.1 c.2
            then Outcome.imported else Outcome.failed)) := by
    simp [run_import, hneed, map_execStep_snd_apply]
  refine ⟨?_, hout, ?_⟩
  · intro j hj
    have htr : (run_import env pfx false).trace =
        Invocation.consoleQuery "var.import_existing_resources" ::
        Invocation.listBuckets :: Invocation.listRoles ::
        (get_import_commands env pfx).map
          (fun c => Invocation.terraformImport c.1 c.2) := by
      simp [run_import, hneed, flatten_map_execStep_apply]
    rw [htr]
    refine List.mem_cons_of_mem _ (List.mem_cons_of_mem _ (List.mem_cons_of_mem _ ?_))
    exact List.mem_map_of_mem _ (List.get_mem _ _ _)
  · rw [hout, List.mem_map]
    refine ⟨(get_import_commands env pfx).get ⟨k, hk⟩, List.get_mem _ _ _, ?_⟩
    simp
    exact hfail

/-- Witness for C3: with every import failing, the outcomes still record
all 7 plan entries, each as `failed`. -/
theorem apply_failure_isolation_witness :
    (run_import envFailAll "acme-state-files-prod" false).outcomes =
      [(("aws_s3_bucket.terraform_state", "acme-state-files-prod-a1b2"), Outcome.failed),
       (("aws_s3_bucket_versioning.terraform_state_versioning", "acme-state-files-prod-a1b2"), Outcome.failed),
       (("aws_s3_bucket_server_side_encryption_configuration.terraform_state_encryption", "acme-state-files-prod-a1b2"), Outcome.failed),
       (("aws_s3_bucket_public_access_block.terraform_state_pab", "acme-state-files-prod-a1b2"), Outcome.failed),
       (("aws_s3_bucket_lifecycle_configuration.terraform_state_lifecycle", "acme-state-files-prod-a1b2"), Outcome.failed),
       (("aws_iam_role.terraform_state_role", "acme-state-files-prod-role"), Outcome.failed),
       (("aws_iam_role_policy.terraform_state_policy", "acme-state-files-prod-role:terraform-state-files-policy"), Outcome.failed)] := by
  have h := (apply_failure_isolation envFailAll "acme-state-files-prod" 0
    (by decide) (by decide) (by decide)).2.1
  rw [h]
  decide

/-- Claim C4: a DryRun execution performs zero `terraform import`
invocations, and an Apply execution (once the gate passed) performs
exactly one `terraform import` invocation per plan entry, in order, with
that entry's (managed-address, external-id) pair, regardless of each
invocation's outcome. -/
theorem run_modes_invocations (env : Env) (pfx : String) :
    ((run_import env pfx true).trace.filter Invocation.isImportCall = []) ∧
    (check_import_needed env = true →
      (run_import env pfx false).trace.filter Invocation.isImportCall =
        (get_import_commands env pfx).map
          (fun c => Invocation.terraformImport c.1 c.2)) := by
  constructor
  · cases h : check_import_needed env with
    | false => simp [run_import, h, Invocation.isImportCall]
    | true => simp [run_import, h, flatten_map_execStep_dry, Invocation.isImportCall]
  · intro h
    have htr : (run_import env pfx false).trace =
        Invocation.consoleQuery "var.import_existing_resources" ::
        Invocation.listBuckets :: Invocation.listRoles ::
        (get_import_commands env pfx).map
          (fun c => Invocation.terraformImport c.1 c.2) := by
      simp [run_import, h, flatten_map_execStep_apply]
    rw [htr]
    have hhead : List.filter Invocation.isImportCall
        (Invocation.consoleQuery "var.import_existing_resources" ::
          Invocation.listBuckets :: Invocation.listRoles ::
          (get_import_commands env pfx).map
            (fun c => Invocation.terraformImport c.1 c.2))
        = List.filter Invocation.isImportCall
            ((get_import_commands env pfx).map
              (fun c => Invocation.terraformImport c.1 c.2)) := rfl
    rw [hhead, filter_import_map]

/-- Witness for C4 at the concrete environment `envHappy`. -/
theorem run_modes_invocations_witness :
    check_import_needed envHappy = true ∧
    (run_import envHappy "acme-state-files-prod" false).trace.filter
        Invocation.isImportCall =
      (get_import_commands envHappy "acme-state-files-prod").map
        (fun c => Invocation.terraformImport c.1 c.2) :=
  ⟨by decide, (run_modes_invocations envHappy "acme-state-files-prod").2 (by decide)⟩

/-- Claim C5: if the import-needed flag evaluates to false or its query
fails, `run_import` (in either mode) is a no-op beyond that single flag
query: its trace holds no bucket listing, no role listing and no
`terraform import` invocation, and no outcome is recorded. -/
theorem gate_false_noop (env : Env) (pfx : String) (dry_run : Bool)
    (h : check_import_needed env = false ∨ env.importFlagConsole = none) :
    (run_import env pfx dry_run).trace =
      [Invocation.consoleQuery "var.import_existing_resources"] ∧
    (run_import env pfx dry_run).outcomes = [] ∧
    Invocation.listBuckets ∉ (run_import env pfx dry_run).trace ∧
    Invocation.listRoles ∉ (run_import env pfx dry_run).trace ∧
    (run_import env pfx dry_run).trace.filter Invocation.isImportCall = [] := by
  have hc : check_import_needed env = false := by
    rcases h with h | h
    · exact h
    · simp [check_import_needed, h]
  refine ⟨?_, ?_, ?_, ?_, ?_⟩ <;> simp [run_import, hc, Invocation.isImportCall]

/-- Witness for C5: the flag query fails, so the run is a no-op. -/
theorem gate_false_noop_witness :
    (run_import envFlagOff "acme-state-files-prod" false).trace =
      [Invocation.consoleQuery "var.import_existing_resources"] ∧
    (run_import envFlagOff "acme-state-files-prod" false).outcomes = [] :=
  ⟨(gate_false_noop envFlagOff "acme-state-files-prod" false (Or.inr rfl)).1,
   (gate_false_noop envFlagOff "acme-state-files-prod" false (Or.inr rfl)).2.1⟩

/-- Claim C7: an enumeration error (modelled as `none` from the listing
collaborator) is absorbed by the discoverer: the discovery result for
that kind is `none`, and the run still completes — `run_import` returns a
well-defined (empty) report instead of aborting. -/
theorem discovery_error_degrades (env : Env) (pfx : String) :
    (env.buckets = none → discover_s3_bucket env pfx = none) ∧
    (env.rolePages = none → discover_iam_role env pfx = none) ∧
    ((env.buckets = none ∨ env.rolePages = none) →
      ∀ dry_run, (run_import env pfx dry_run).outcomes = []) := by
  refine ⟨fun h => by simp [discover_s3_bucket, h],
          fun h => by simp [discover_iam_role, h],
          fun h dry_run => ?_⟩
  have hcmds : get_import_commands env pfx = [] := by
    apply get_import_commands_nil_of_missing
    rcases h with h | h
    · exact Or.inl (by simp [discover_s3_bucket, h])
    · exact Or.inr (by simp [discover_iam_role, h])
  cases hc : check_import_needed env with
  | false => simp [run_import, hc]
  | true => simp [run_import, hc, hcmds]

/-- Witness for C7: both listings raise, discovery degrades to `none`
and the run completes with an empty report. -/
theorem discovery_error_degrades_witness :
    discover_s3_bucket envBroken "acme-state-files-prod" = none ∧
    discover_iam_role envBroken "acme-state-files-prod" = none ∧
    (run_import envBroken "acme-state-files-prod" false).outcomes = [] :=
  ⟨(discovery_error_degrades envBroken "acme-state-files-prod").1 rfl,
   (discovery_error_degrades envBroken "acme-state-files-prod").2.1 rfl,
   (discovery_error_degrades envBroken "acme-state-files-prod").2.2 (Or.inl rfl) false⟩

/-- Claim C10: a DryRun run is not free of external I/O — its trace is
exactly the Apply trace with only the `terraform import` invocations
removed, and (when the gate passes) it still contains the flag query, the
bucket listing and the role listing. -/
theorem dry_run_preserves_checks (env : Env) (pfx : String) :
    (run_import env pfx true).trace =
      ((run_import env pfx false).trace).filter
        (fun v => !(Invocation.isImportCall v)) ∧
    (check_import_needed env = true →
      Invocation.consoleQuery "var.import_existing_resources"
          ∈ (run_import env pfx true).trace ∧
      Invocation.listBuckets ∈ (run_import env pfx true).trace ∧
      Invocation.listRoles ∈ (run_import env pfx true).trace) := by
  constructor
  · cases h : check_import_needed env with
    | false => simp [run_import, h, Invocation.isImportCall]
    | true =>
        have hdry : (run_import env pfx true).trace =
            [Invocation.consoleQuery "var.import_existing_resources",
             Invocation.listBuckets, Invocation.listRoles] := by
          simp [run_import, h, flatten_map_execStep_dry]
        have happ : (run_import env pfx false).trace =
            Invocation.consoleQuery "var.import_existing_resources" ::
            Invocation.listBuckets :: Invocation.listRoles ::
            (get_import_commands env pfx).map
              (fun c => Invocation.terraformImport c.1 c.2) := by
          simp [run_import, h, flatten_map_execStep_apply]
        rw [hdry, happ]
        have hhead : List.filter (fun v => !(Invocation.isImportCall v))
            (Invocation.consoleQuery "var.import_existing_resources" ::
              Invocation.listBuckets :: Invocation.listRoles ::
              (get_import_commands env pfx).map
                (fun c => Invocation.terraformImport c.1 c.2))
            = Invocation.consoleQuery "var.import_existing_resources" ::
              Invocation.listBuckets :: Invocation.listRoles ::
              List.filter (fun v => !(Invocation.isImportCall v))
                ((get_import_commands env pfx).map
                  (fun c => Invocation.terraformImport c.1 c.2)) := rfl
        rw [hhead, filter_not_import_map]
  · intro h
    have hdry : (run_import env pfx true).trace =
        [Invocation.consoleQuery "var.import_existing_resources",
         Invocation.listBuckets, Invocation.listRoles] := by
      simp [run_import, h, flatten_map_execStep_dry]
    rw [hdry]
    refine ⟨?_, ?_, ?_⟩ <;> simp

/-- Witness for C10 at the concrete environment `envHappy`. -/
theorem dry_run_preserves_checks_witness :
    Invocation.consoleQuery "var.import_existing_resources"
        ∈ (run_import envHappy "acme-state-files-prod" true).trace ∧
    Invocation.listBuckets ∈ (run_import envHappy "acme-state-files-prod" true).trace ∧
    Invocation.listRoles ∈ (run_import envHappy "acme-state-files-prod" true).trace :=
  (dry_run_preserves_checks envHappy "acme-state-files-prod").2 (by decide)
